import Mathlib

/-!
Verification of the concurrent live-stream recording engine against its
natural-language specification.  Each section embeds the relevant Python
source (src/utils/resolution_detector.py, src/core/tiktok_recorder.py,
src/core/multi_stream_recorder.py, src/utils/config_manager.py) as
executable Lean definitions and proves or refutes one claim about it.
-/

namespace TLRec

/-! ## Resolution monitoring (src/utils/resolution_detector.py)

The detector keeps `self.current_resolution` as the baseline, a
consecutive-failure counter local to `_monitor_loop`, and fires the
registered callback with `(old_resolution, new_resolution)` when a probe
differs from an existing baseline (lines 116-167). -/

/-- Resolution sample as returned by a probe: a (width, height) pair of
integers, as produced by `int(width), int(height)` in the detector. -/
abbrev Res := Int × Int

/-- Observable state of `ResolutionDetector` during `_monitor_loop`:
the baseline `current_resolution`, the `consecutive_failures` counter,
whether the loop has exited (the `break` after too many failures), and the
ordered list of callback invocations `(old, new)` made so far. -/
structure MonitorState where
  current : Option Res
  failures : Nat
  stopped : Bool
  events : List (Res × Res)
deriving Repr, DecidableEq

/-- Constant `max_consecutive_failures = 3` of `_monitor_loop` (line 119). -/
def maxConsecutiveFailures : Nat := 3

/-- One iteration of `ResolutionDetector._monitor_loop` (lines 121-161)
applied to the outcome of one probe (`None` models a failed
`get_current_resolution`).  On success the failure counter resets; if a
baseline exists and the sample differs, the baseline is replaced and the
callback fires once with `(old, new)`; if no baseline exists the sample is
adopted silently.  On failure the counter increments and at
`max_consecutive_failures` the loop breaks. -/
def monitorStep (st : MonitorState) (probe : Option Res) : MonitorState :=
  if st.stopped then st
  else
    match probe with
    | some newRes =>
      match st.current with
      | some cur =>
        if newRes ≠ cur then
          { st with
            failures := 0
            current := some newRes
            events := st.events ++ [(cur, newRes)] }
        else
          { st with failures := 0 }
      | none => { st with failures := 0, current := some newRes }
    | none =>
      if maxConsecutiveFailures ≤ st.failures + 1 then
        { st with failures := st.failures + 1, stopped := true }
      else
        { st with failures := st.failures + 1 }

/-- State right after `start_monitoring` (lines 70-101): the initial probe
result, when successful, becomes the baseline without firing any callback;
otherwise the baseline stays unset.  No events have been emitted. -/
def startMonitoringInit (initialProbe : Option Res) : MonitorState :=
  { current := initialProbe, failures := 0, stopped := false, events := [] }

/-- The monitoring loop run over a finite list of probe outcomes. -/
def monitorRun (init : MonitorState) (probes : List (Option Res)) : MonitorState :=
  probes.foldl monitorStep init

/-- The 720p sample used by the specification scenario. -/
def p720 : Res := (1280, 720)

/-- The 1080p sample used by the specification scenario. -/
def p1080 : Res := (1920, 1080)

/-- C1: the resolution-change callback fires exactly once per change with
arguments (old, new): a successful probe with no baseline set only adopts
the baseline without firing; a probe equal to the baseline fires nothing;
a probe differing from an existing baseline fires the callback exactly
once with (old, new) and replaces the baseline; and on the sampled
sequence [720p, 720p, 1080p, 1080p] (whether the first sample is consumed
by the initial probe of start_monitoring or all four by the polling loop)
the callback fires exactly once, with (720p, 1080p). -/
theorem c1_callback_fires_once_per_change :
    (∀ st r, st.stopped = false → st.current = none →
      monitorStep st (some r) = { st with failures := 0, current := some r }) ∧
    (∀ st r, st.stopped = false → st.current = some r →
      monitorStep st (some r) = { st with failures := 0 }) ∧
    (∀ st oldR newR, st.stopped = false → st.current = some oldR → newR ≠ oldR →
      monitorStep st (some newR)
        = { st with
            failures := 0
            current := some newR
            events := st.events ++ [(oldR, newR)] }) ∧
    (monitorRun (startMonitoringInit (some p720))
        [some p720, some p1080, some p1080]).events = [(p720, p1080)] ∧
    (monitorRun (startMonitoringInit none)
        [some p720, some p720, some p1080, some p1080]).events = [(p720, p1080)] := by
  refine ⟨?_, ?_, ?_, ?_, ?_⟩
  · intro st r h1 h2
    simp [monitorStep, h1, h2]
  · intro st r h1 h2
    simp [monitorStep, h1, h2]
  · intro st oldR newR h1 h2 h3
    simp [monitorStep, h1, h2, h3]
  · rfl
  · rfl

/-- Closed instance of the three conditional parts of
c1_callback_fires_once_per_change, evaluated at concrete states. -/
theorem c1_callback_fires_once_per_change_witness :
    monitorStep { current := none, failures := 0, stopped := false, events := [] }
        (some p720)
      = { current := some p720, failures := 0, stopped := false, events := [] } ∧
    monitorStep { current := some p720, failures := 0, stopped := false, events := [] }
        (some p720)
      = { current := some p720, failures := 0, stopped := false, events := [] } ∧
    monitorStep { current := some p720, failures := 0, stopped := false, events := [] }
        (some p1080)
      = { current := some p1080, failures := 0, stopped := false,
          events := [(p720, p1080)] } :=
  ⟨c1_callback_fires_once_per_change.1 _ p720 rfl rfl,
   c1_callback_fires_once_per_change.2.1 _ p720 rfl rfl,
   c1_callback_fires_once_per_change.2.2.1 _ p720 p1080 rfl rfl (by decide)⟩

/-! ## Buffered writing in the streaming loop

Both recorders accumulate chunks in a bytearray and write it to the open
file once it reaches 512 KiB; the finally-block of each loop iteration
writes any remaining buffer and flushes
(tiktok_recorder.py lines 196-284, multi_stream_recorder.py 289-352). -/

/-- Constant `buffer_size = 512 * 1024` of both streaming loops. -/
def bufferSizeBytes : Nat := 512 * 1024

/-- Contents written to `out_file` so far and the in-memory bytearray
buffer; bytes are modelled as naturals. -/
structure WriterState where
  fileData : List Nat
  buffer : List Nat
deriving Repr, DecidableEq

/-- Effect of `buffer.extend(chunk)` followed by the flush-if-full check
`if len(buffer) >= buffer_size: out_file.write(buffer); buffer.clear()`. -/
def appendChunk (st : WriterState) (chunk : List Nat) : WriterState :=
  let b := st.buffer ++ chunk
  if bufferSizeBytes ≤ b.length then { fileData := st.fileData ++ b, buffer := [] }
  else { fileData := st.fileData, buffer := b }

/-- Effect of the per-iteration finally block
`if buffer: out_file.write(buffer); buffer.clear()` plus `out_file.flush()`,
which runs on every exit of the loop body, error paths included. -/
def flushOnExit (st : WriterState) : WriterState :=
  { fileData := st.fileData ++ st.buffer, buffer := [] }

/-- Streaming in `TikTokRecorder.start_recording`: every chunk yielded by
`download_live_stream` is appended to the buffer before any exit check, so
a session is a fold of appendChunk over the received chunks, followed by
the final flush when the loop exits. -/
def singleSessionWrite (chunks : List (List Nat)) : WriterState :=
  flushOnExit (chunks.foldl appendChunk { fileData := [], buffer := [] })

/-- Inner loop of `MultiStreamRecorder._start_recording_with_stop_event`
(lines 295-303): each fetched chunk is paired with the stop_event value
read just after the fetch; when the stop event is observed the loop breaks
before `buffer.extend(chunk)`, dropping that chunk.  Returns the final
writer state and the total number of bytes received from the source. -/
def multiStreamLoop (st : WriterState) : List (Bool × List Nat) → WriterState × Nat
  | [] => (st, 0)
  | (stopObserved, chunk) :: rest =>
    if stopObserved then (st, chunk.length)
    else
      let next := multiStreamLoop (appendChunk st chunk) rest
      (next.1, chunk.length + next.2)

/-- One multi-recorder session: the inner loop followed by the final flush. -/
def multiSessionWrite (evs : List (Bool × List Nat)) : WriterState × Nat :=
  let r := multiStreamLoop { fileData := [], buffer := [] } evs
  (flushOnExit r.1, r.2)

theorem appendChunk_inv (st : WriterState) (chunk : List Nat) :
    (appendChunk st chunk).fileData ++ (appendChunk st chunk).buffer
      = st.fileData ++ st.buffer ++ chunk := by
  simp only [appendChunk]
  split <;> simp

theorem foldl_appendChunk_inv (chunks : List (List Nat)) (st : WriterState) :
    (chunks.foldl appendChunk st).fileData ++ (chunks.foldl appendChunk st).buffer
      = st.fileData ++ st.buffer ++ chunks.flatten := by
  induction chunks generalizing st with
  | nil => simp
  | cons c cs ih =>
    simp only [List.foldl_cons, List.flatten_cons, ih, appendChunk_inv,
      List.append_assoc]

theorem multiStreamLoop_fst (evs : List (Bool × List Nat)) (st : WriterState) :
    (multiStreamLoop st evs).1
      = ((evs.takeWhile fun e => !e.1).map Prod.snd).foldl appendChunk st := by
  induction evs generalizing st with
  | nil => rfl
  | cons e rest ih =>
    obtain ⟨b, chunk⟩ := e
    cases b with
    | true => simp [multiStreamLoop, List.takeWhile]
    | false => simp [multiStreamLoop, List.takeWhile, ih]

theorem multiStreamLoop_no_stop (evs : List (Bool × List Nat)) (st : WriterState)
    (h : ∀ e ∈ evs, e.1 = false) :
    multiStreamLoop st evs
      = ((evs.map Prod.snd).foldl appendChunk st,
         ((evs.map Prod.snd).flatten).length) := by
  induction evs generalizing st with
  | nil => simp [multiStreamLoop]
  | cons e rest ih =>
    obtain ⟨b, chunk⟩ := e
    have hb : b = false := h (b, chunk) (List.mem_cons_self _ _)
    subst hb
    simp [multiStreamLoop, ih _ (fun x hx => h x (List.mem_cons_of_mem _ hx))]

/-- C3 counterexample: in the multi-stream recorder, a cancellation
observed right after a chunk is fetched discards that chunk, so the bytes
written on that exit path (1 byte here) fall short of the bytes received
from the source (2 bytes). -/
theorem c3_no_byte_loss_counterexample :
    (multiSessionWrite [(false, [7]), (true, [8])]).1.fileData.length = 1 ∧
    (multiSessionWrite [(false, [7]), (true, [8])]).2 = 2 := by
  constructor <;> rfl

/-- C3 amended: on every exit path all bytes appended to the in-memory
buffer are written to the file before it is closed (the final buffer is
always empty and the file holds exactly the appended chunks in order).
In the single recorder every received chunk is appended first, so bytes
written equal bytes received; in the multi recorder the same holds for
every exit path on which no stop signal is observed mid-stream, while a
chunk fetched when the stop event is observed is discarded before being
appended. -/
theorem c3_no_byte_loss_amended :
    (∀ chunks : List (List Nat),
      (singleSessionWrite chunks).fileData = chunks.flatten ∧
      (singleSessionWrite chunks).buffer = []) ∧
    (∀ evs : List (Bool × List Nat),
      (multiSessionWrite evs).1.buffer = [] ∧
      (multiSessionWrite evs).1.fileData
        = ((evs.takeWhile fun e => !e.1).map Prod.snd).flatten) ∧
    (∀ evs : List (Bool × List Nat), (∀ e ∈ evs, e.1 = false) →
      (multiSessionWrite evs).1.fileData = (evs.map Prod.snd).flatten ∧
      (multiSessionWrite evs).1.fileData.length = (multiSessionWrite evs).2) := by
  refine ⟨?_, ?_, ?_⟩
  · intro chunks
    have h := foldl_appendChunk_inv chunks { fileData := [], buffer := [] }
    constructor
    · simp only [singleSessionWrite, flushOnExit]
      simpa using h
    · rfl
  · intro evs
    constructor
    · rfl
    · have hfst := multiStreamLoop_fst evs { fileData := [], buffer := [] }
      have hinv := foldl_appendChunk_inv
        ((evs.takeWhile fun e => !e.1).map Prod.snd) { fileData := [], buffer := [] }
      simp only [multiSessionWrite, hfst, flushOnExit]
      simpa using hinv
  · intro evs h
    have hl := multiStreamLoop_no_stop evs { fileData := [], buffer := [] } h
    have hinv := foldl_appendChunk_inv (evs.map Prod.snd) { fileData := [], buffer := [] }
    constructor
    · simp only [multiSessionWrite, hl, flushOnExit]
      simpa using hinv
    · simp only [multiSessionWrite, hl, flushOnExit]
      have : ((evs.map Prod.snd).foldl appendChunk { fileData := [], buffer := [] }).fileData
          ++ ((evs.map Prod.snd).foldl appendChunk { fileData := [], buffer := [] }).buffer
          = (evs.map Prod.snd).flatten := by simpa using hinv
      simp [← this]

/-- Closed instance of the stop-free multi-recorder part of
c3_no_byte_loss_amended at a concrete two-chunk stream. -/
theorem c3_no_byte_loss_amended_witness :
    (multiSessionWrite [(false, [3]), (false, [4])]).1.fileData = [3, 4] ∧
    (multiSessionWrite [(false, [3]), (false, [4])]).1.fileData.length
      = (multiSessionWrite [(false, [3]), (false, [4])]).2 := by
  have h := c3_no_byte_loss_amended.2.2 [(false, [3]), (false, [4])] (by decide)
  exact ⟨by simpa using h.1, h.2⟩

/-! ## Session exit ordering (C5)

In both recorders the streaming loop lives inside a with-block that owns
the output file; the calls to stop_monitoring and to post-processing are
written after the with-block (tiktok_recorder.py line 286 onward,
multi_stream_recorder.py line 355 onward). -/

/-- Externally visible actions at the end of a recording session. -/
inductive SessionEvent where
  | openSink
  | closeSink
  | stopMonitor
  | postProcess
deriving Repr, DecidableEq

/-- Python with-block semantics for the sink: the body's events happen,
then the sink is closed whether or not the body raised, and a raised
exception propagates after the close.  loopError = some e models an
exception escaping the recording loop, for example an interrupt delivered
inside an except-handler of the loop body, which nothing else catches. -/
def withSinkBlock (loopEvents : List SessionEvent) (loopError : Option String) :
    List SessionEvent × Option String :=
  (SessionEvent.openSink :: loopEvents ++ [SessionEvent.closeSink], loopError)

/-- Statement sequence after the with-block in start_recording and in
_start_recording_with_stop_event: stop_monitoring and then post-processing
run only when no exception escaped the with-block; an escaping exception
skips every statement after the block. -/
def sessionTailEvents (loopEvents : List SessionEvent) (loopError : Option String) :
    List SessionEvent × Option String :=
  match withSinkBlock loopEvents loopError with
  | (evs, none) => (evs ++ [SessionEvent.stopMonitor, SessionEvent.postProcess], none)
  | (evs, some e) => (evs, some e)

/-- C5 counterexample: on a normal exit the sink is closed strictly before
the monitor is stopped, and on an exceptional escape the monitor is never
stopped at all, contradicting the claim that the monitor stop is
unconditional and happens before the sink is finalized. -/
theorem c5_stop_before_close_counterexample :
    (sessionTailEvents [] none).1.indexOf SessionEvent.closeSink
      < (sessionTailEvents [] none).1.indexOf SessionEvent.stopMonitor ∧
    SessionEvent.stopMonitor ∉ (sessionTailEvents [] (some "interrupt")).1 := by
  constructor <;> decide

/-- C5 amended: on every normal exit of a recording session the monitor is
stopped exactly once, and only after the output sink has been closed (the
trace decomposes around the close with every monitor stop in the part
after it); an exception escaping the recording loop still closes the sink
but skips stopping the monitor entirely. -/
theorem c5_monitor_stop_after_close_amended :
    (∀ evs, (sessionTailEvents evs none).1
      = SessionEvent.openSink :: evs
        ++ [SessionEvent.closeSink, SessionEvent.stopMonitor,
            SessionEvent.postProcess]) ∧
    (∀ evs, SessionEvent.stopMonitor ∉ evs →
      ∃ pre post, (sessionTailEvents evs none).1 = pre ++ SessionEvent.closeSink :: post
        ∧ SessionEvent.stopMonitor ∉ pre ∧ SessionEvent.stopMonitor ∈ post) ∧
    (∀ evs e, SessionEvent.stopMonitor ∉ evs →
      SessionEvent.stopMonitor ∉ (sessionTailEvents evs (some e)).1) := by
  refine ⟨?_, ?_, ?_⟩
  · intro evs
    simp [sessionTailEvents, withSinkBlock]
  · intro evs h
    refine ⟨SessionEvent.openSink :: evs,
      [SessionEvent.stopMonitor, SessionEvent.postProcess], ?_, ?_, ?_⟩
    · simp [sessionTailEvents, withSinkBlock]
    · simp [h]
    · simp
  · intro evs e h
    simp [sessionTailEvents, withSinkBlock, h]

/-- Closed instance of c5_monitor_stop_after_close_amended at the empty
loop trace. -/
theorem c5_monitor_stop_after_close_amended_witness :
    ∃ pre post,
      (sessionTailEvents [] none).1 = pre ++ SessionEvent.closeSink :: post
        ∧ SessionEvent.stopMonitor ∉ pre ∧ SessionEvent.stopMonitor ∈ post :=
  c5_monitor_stop_after_close_amended.2.1 [] (by decide)

/-! ## Monitor shutdown timing (C4)

stop_monitoring (resolution_detector.py lines 103-114) joins the loop
thread with a 5 second timeout, while one probe inside the loop may block
for up to the 10 second subprocess timeout (line 45); the loop observes
the stop event only at the top of an iteration (line 121). -/

/-- Timeout passed to monitor_thread.join in stop_monitoring (line 112). -/
def joinTimeoutSeconds : Nat := 5

/-- Timeout passed to subprocess.run inside get_current_resolution
(line 45): the probe of one loop iteration may run this long. -/
def probeTimeoutSeconds : Nat := 10

/-- The flags of ResolutionDetector consulted and set by stop_monitoring. -/
structure DetectorFlags where
  isMonitoring : Bool
  stopEventSet : Bool
deriving Repr, DecidableEq

/-- stop_monitoring: returns immediately when not monitoring; otherwise
clears is_monitoring, sets the stop event and joins the loop thread with
the 5 second timeout.  The second component is how many seconds the call
blocks, given how long the in-flight loop iteration still needs: the join
returns when the thread exits or when the timeout elapses, whichever
comes first. -/
def stopMonitoring (st : DetectorFlags) (remainingIterationSeconds : Nat) :
    DetectorFlags × Nat :=
  if st.isMonitoring then
    ({ isMonitoring := false, stopEventSet := true },
      min remainingIterationSeconds joinTimeoutSeconds)
  else (st, 0)

/-- Once the stop event is set, the loop exits when the iteration in
flight completes: the probe finishes (possibly firing the callback on a
changed sample, lines 123-144), the stop_event.wait returns immediately
because the event is set, and the loop condition then fails. -/
def loopExitSeconds (remainingIterationSeconds : Nat) : Nat :=
  remainingIterationSeconds

/-- C4 counterexample: with a probe in flight for the full 10 second
probe timeout, stop_monitoring returns after 5 seconds while the loop
only exits after 10, so stop returns before the loop has exited and any
change callback fired by that probe lands after stop has returned. -/
theorem c4_stop_race_free_counterexample :
    (stopMonitoring { isMonitoring := true, stopEventSet := false }
        probeTimeoutSeconds).2
      < loopExitSeconds probeTimeoutSeconds := by
  decide

/-- C4 amended: stop_monitoring is idempotent (a call while not
monitoring leaves the state unchanged and does not block, and a second
call after a first is such a call); it always blocks at most the 5 second
join timeout; it returns exactly when the loop exits whenever the
in-flight iteration needs at most the join timeout; but since a probe may
need up to 10 > 5 seconds, it can return strictly before the loop exits. -/
theorem c4_stop_monitoring_amended :
    (∀ st r, st.isMonitoring = false → stopMonitoring st r = (st, 0)) ∧
    (∀ st r r2, st.isMonitoring = true →
      stopMonitoring (stopMonitoring st r).1 r2 = ((stopMonitoring st r).1, 0)) ∧
    (∀ st r, (stopMonitoring st r).2 ≤ joinTimeoutSeconds) ∧
    (∀ st r, st.isMonitoring = true → r ≤ joinTimeoutSeconds →
      (stopMonitoring st r).2 = loopExitSeconds r) ∧
    (joinTimeoutSeconds < probeTimeoutSeconds ∧
      ∀ st r, st.isMonitoring = true → joinTimeoutSeconds < r →
        (stopMonitoring st r).2 < loopExitSeconds r) := by
  refine ⟨?_, ?_, ?_, ?_, by decide, ?_⟩
  · intro st r h
    simp [stopMonitoring, h]
  · intro st r r2 h
    simp [stopMonitoring, h]
  · intro st r
    by_cases h : st.isMonitoring = true
    · simp [stopMonitoring, h]
    · simp only [Bool.not_eq_true] at h
      simp [stopMonitoring, h]
  · intro st r h hr
    simp [stopMonitoring, h, loopExitSeconds, Nat.min_eq_left hr]
  · intro st r h hr
    simp [stopMonitoring, h, loopExitSeconds]
    omega

/-- Closed instance of c4_stop_monitoring_amended: a stop with no loop
running is a no-op, and with 3 seconds of iteration left the call returns
exactly at loop exit. -/
theorem c4_stop_monitoring_amended_witness :
    stopMonitoring { isMonitoring := false, stopEventSet := true } 7
      = ({ isMonitoring := false, stopEventSet := true }, 0) ∧
    (stopMonitoring { isMonitoring := true, stopEventSet := false } 3).2
      = loopExitSeconds 3 :=
  ⟨c4_stop_monitoring_amended.1 _ 7 rfl,
   c4_stop_monitoring_amended.2.2.2.1 _ 3 rfl (by decide)⟩

/-! ## Resolution-driven restart decision (C2)

After a session ends, _start_recording_with_stop_event (lines 376-391)
decides whether to start a new session for the same target. -/

/-- Inputs read by the restart decision after a session ends: the
restart_requested flag set by the resolution-change callback, the
orchestrator stop event, the fresh is_room_alive check and the result of
the fresh get_live_url call made before restarting. -/
structure RestartContext where
  restartRequested : Bool
  stopEventSet : Bool
  roomAlive : Bool
  freshLiveUrl : Option String
deriving Repr, DecidableEq

/-- Restart decision of _start_recording_with_stop_event: a new session
starts (returning the url it records from) only when the flag is set, the
stop event is clear, the fresh liveness check passes and the freshly
resolved live url is present; when the url is absent only a warning is
logged.  The restarted session records from the freshly resolved url,
never the previous session's. -/
def restartDecision (c : RestartContext) : Option String :=
  if c.restartRequested && !c.stopEventSet && c.roomAlive then
    match c.freshLiveUrl with
    | some u => some u
    | none => none
  else none

/-- C2 counterexample: with the restart flag set, the stop event clear
and the target still live, but the fresh get_live_url returning nothing,
no new session is started, refuting the claimed if-and-only-if. -/
theorem c2_restart_iff_counterexample :
    (restartDecision
      { restartRequested := true
        stopEventSet := false
        roomAlive := true
        freshLiveUrl := none }).isSome = false := by
  decide

/-- C2 amended: after a session whose restart flag is set, a new session
for the same target starts if and only if the cancellation signal is not
set, a fresh liveness check confirms the target is live, and a fresh
playback-url resolution succeeds; the new session then records from that
freshly re-resolved url, not the old one. -/
theorem c2_restart_condition_amended (c : RestartContext)
    (h : c.restartRequested = true) :
    ((restartDecision c).isSome
      ↔ c.stopEventSet = false ∧ c.roomAlive = true ∧ c.freshLiveUrl.isSome) ∧
    (∀ u, restartDecision c = some u → c.freshLiveUrl = some u) := by
  constructor
  · cases hc : c.freshLiveUrl <;>
      simp [restartDecision, h, hc, Bool.and_eq_true, Bool.not_eq_true]
  · intro u hu
    simp only [restartDecision, h] at hu
    by_cases hcond : (true && !c.stopEventSet && c.roomAlive) = true
    · rw [hcond] at hu
      cases hc : c.freshLiveUrl with
      | none => simp [hc] at hu
      | some v => simp [hc] at hu; simp [hc, hu]
    · simp only [Bool.not_eq_true] at hcond
      rw [hcond] at hu
      simp at hu

/-- Closed instance of c2_restart_condition_amended at a context where
all three conditions hold. -/
theorem c2_restart_condition_amended_witness :
    (restartDecision
      { restartRequested := true
        stopEventSet := false
        roomAlive := true
        freshLiveUrl := some "live.m3u8" }).isSome = true :=
  (c2_restart_condition_amended
      { restartRequested := true
        stopEventSet := false
        roomAlive := true
        freshLiveUrl := some "live.m3u8" } rfl).1.mpr
    (by decide)

/-! ## Automatic-mode task loop (C7)

TikTokRecorder.automatic_mode (tiktok_recorder.py lines 114-130) and
MultiStreamRecorder._automatic_mode_with_stop_event
(multi_stream_recorder.py lines 203-224) differ in how they wait after an
offline session and in what ends the task loop. -/

/-- Classification of how one automatic-mode session attempt ends. -/
inductive SessionFailure where
  | userNotLive
  | connectionClosed
  | unexpected
deriving Repr, DecidableEq

/-- Effect of one automatic-mode loop iteration's exception handling:
whether the task loop runs another iteration, how many seconds it waits
before doing so, and how many times the cancellation signal is consulted
during that wait. -/
structure AutoStepEffect where
  continuesLoop : Bool
  waitSeconds : Nat
  cancellationChecks : Nat
deriving Repr, DecidableEq

/-- Handlers of _automatic_mode_with_stop_event (lines 212-224): a
UserLiveException waits automatic_interval minutes as interval * 60
one-second sleeps, each preceded by a stop_event check, then loops; any
other exception (ConnectionError included, since only the generic handler
exists there) logs and breaks the task loop. -/
def multiAutoStep (intervalMinutes : Nat) : SessionFailure → AutoStepEffect
  | SessionFailure.userNotLive =>
    { continuesLoop := true
      waitSeconds := intervalMinutes * 60
      cancellationChecks := intervalMinutes * 60 }
  | SessionFailure.connectionClosed =>
    { continuesLoop := false, waitSeconds := 0, cancellationChecks := 0 }
  | SessionFailure.unexpected =>
    { continuesLoop := false, waitSeconds := 0, cancellationChecks := 0 }

/-- Handlers of TikTokRecorder.automatic_mode (lines 120-130): a
UserLiveException sleeps the whole automatic_interval minutes in one
uninterruptible time.sleep; ConnectionError sleeps a fixed cooldown the
same way; any other exception is logged and the while-True loop runs
again.  connectionCooldownSeconds stands for TimeOut.CONNECTION_CLOSED *
TimeOut.ONE_MINUTE, whose enum module is not among the sources; its value
does not affect the properties proved here. -/
def singleAutoStep (intervalMinutes connectionCooldownSeconds : Nat) :
    SessionFailure → AutoStepEffect
  | SessionFailure.userNotLive =>
    { continuesLoop := true
      waitSeconds := intervalMinutes * 60
      cancellationChecks := 0 }
  | SessionFailure.connectionClosed =>
    { continuesLoop := true
      waitSeconds := connectionCooldownSeconds
      cancellationChecks := 0 }
  | SessionFailure.unexpected =>
    { continuesLoop := true, waitSeconds := 0, cancellationChecks := 0 }

/-- C7 counterexample: in the single-recorder automatic mode an
unexpected error leaves the task loop running (it is retried
indefinitely), and the offline wait performs no cancellation checks at
all, refuting both halves of the claim for that task loop. -/
theorem c7_auto_mode_counterexample :
    (singleAutoStep 5 120 SessionFailure.unexpected).continuesLoop = true ∧
    (singleAutoStep 5 120 SessionFailure.userNotLive).cancellationChecks = 0 := by
  decide

/-- C7 amended: in the multi-stream automatic mode an offline session
waits the configured re-check interval checking the cancellation signal
once per waited second before looping, and any other error ends the task;
in the single-recorder automatic mode the offline wait is one
uninterruptible sleep with no cancellation checks, and unexpected errors
are logged and retried indefinitely rather than ending the task. -/
theorem c7_auto_mode_amended :
    (∀ m, multiAutoStep m SessionFailure.userNotLive
      = { continuesLoop := true
          waitSeconds := m * 60
          cancellationChecks := m * 60 }) ∧
    (∀ m f, f ≠ SessionFailure.userNotLive →
      multiAutoStep m f
        = { continuesLoop := false, waitSeconds := 0, cancellationChecks := 0 }) ∧
    (∀ m c f, (singleAutoStep m c f).continuesLoop = true ∧
      (singleAutoStep m c f).cancellationChecks = 0) := by
  refine ⟨fun m => rfl, ?_, ?_⟩
  · intro m f hf
    cases f with
    | userNotLive => exact absurd rfl hf
    | connectionClosed => rfl
    | unexpected => rfl
  · intro m c f
    cases f <;> exact ⟨rfl, rfl⟩

/-- Closed instance of c7_auto_mode_amended at a connection-class
failure in the multi-stream task loop. -/
theorem c7_auto_mode_amended_witness :
    multiAutoStep 5 SessionFailure.connectionClosed
      = { continuesLoop := false, waitSeconds := 0, cancellationChecks := 0 } :=
  c7_auto_mode_amended.2.1 5 SessionFailure.connectionClosed (by decide)

/-! ## Transport-error handling in the streaming loop (C8)

The single recorder's streaming loop (tiktok_recorder.py lines 264-278)
has dedicated handlers per error class; the multi recorder's loop
(multi_stream_recorder.py lines 344-346) has a single generic handler. -/

/-- Error classes that can interrupt one pass of the streaming loop:
transportError covers RequestException and HTTPException. -/
inductive StreamError where
  | transportError
  | connectionError
  | keyboardInterrupt
  | unexpected
deriving Repr, DecidableEq

/-- Effect of a streaming-loop error handler: the in-place delay before
the loop retries and whether stop_recording is set (session ends). -/
structure StreamErrorEffect where
  delaySeconds : Nat
  stopRecording : Bool
deriving Repr, DecidableEq

/-- Recording mode from utils.enums. -/
inductive RecMode where
  | manual
  | automatic
deriving Repr, DecidableEq

/-- Handlers of the single-recorder streaming loop: transport errors
sleep 2 seconds and retry in place; ConnectionError sleeps a fixed
cooldown in automatic mode (and does nothing in manual mode) and retries;
KeyboardInterrupt and unexpected exceptions set stop_recording.
connectionCooldownSeconds stands for TimeOut.CONNECTION_CLOSED *
TimeOut.ONE_MINUTE from the enum module that is not among the sources. -/
def singleStreamErrorEffect (mode : RecMode) (connectionCooldownSeconds : Nat) :
    StreamError → StreamErrorEffect
  | StreamError.transportError => { delaySeconds := 2, stopRecording := false }
  | StreamError.connectionError =>
    if mode = RecMode.automatic then
      { delaySeconds := connectionCooldownSeconds, stopRecording := false }
    else
      { delaySeconds := 0, stopRecording := false }
  | StreamError.keyboardInterrupt => { delaySeconds := 0, stopRecording := true }
  | StreamError.unexpected => { delaySeconds := 0, stopRecording := true }

/-- Handler of the multi-recorder streaming loop: one except-Exception
arm logs and sets stop_recording for every caught error; KeyboardInterrupt
is not an Exception, so it is not caught there (none models escape). -/
def multiStreamErrorEffect : StreamError → Option StreamErrorEffect
  | StreamError.keyboardInterrupt => none
  | _ => some { delaySeconds := 0, stopRecording := true }

/-- C8 counterexample: in the multi-recorder streaming loop a
transport-level disconnect ends the session immediately instead of being
retried in place, refuting the claim for multi-recorder sessions. -/
theorem c8_transport_retry_counterexample :
    multiStreamErrorEffect StreamError.transportError
      = some { delaySeconds := 0, stopRecording := true } := by
  decide

/-- C8 amended: in the single recorder's streaming loop a transport-level
disconnect or timeout is retried in place within the same session after a
fixed 2-second delay, in every mode; in the multi recorder's streaming
loop every caught error, transport errors included, ends the session. -/
theorem c8_transport_retry_amended :
    (∀ mode c, singleStreamErrorEffect mode c StreamError.transportError
      = { delaySeconds := 2, stopRecording := false }) ∧
    (∀ e eff, multiStreamErrorEffect e = some eff → eff.stopRecording = true) := by
  constructor
  · intro mode c
    rfl
  · intro e eff h
    cases e <;> simp [multiStreamErrorEffect] at h <;> simp [← h]

/-- Closed instance of c8_transport_retry_amended at the transport-error
arm of the multi-recorder handler. -/
theorem c8_transport_retry_amended_witness :
    ((multiStreamErrorEffect StreamError.transportError).getD
      { delaySeconds := 0, stopRecording := false }).stopRecording = true :=
  c8_transport_retry_amended.2 StreamError.transportError
    { delaySeconds := 0, stopRecording := true } rfl

/-! ## Per-user and per-room configuration (C9)

ConfigManager (src/utils/config_manager.py) reads user_settings.json once
when constructed and resolves the restart flag and check interval from
its users, rooms and default sections. -/

/-- Override entries a user or room section of user_settings.json may
carry; either key may be absent. -/
structure EntitySettings where
  restartOnResolutionChange : Option Bool
  resolutionCheckInterval : Option Nat
deriving Repr, DecidableEq

/-- Parsed configuration: the default section (whose keys may be absent
in a hand-edited file) plus the users and rooms maps as association
lists. -/
structure UserConfig where
  defaultSettings : EntitySettings
  users : List (String × EntitySettings)
  rooms : List (String × EntitySettings)
deriving Repr, DecidableEq

/-- Python dict .get(key, default dict): the settings stored for one
entity, empty when the entity has no section. -/
def lookupEntity (entries : List (String × EntitySettings)) (key : String) :
    EntitySettings :=
  match entries.find? (fun p => p.1 == key) with
  | some p => p.2
  | none => { restartOnResolutionChange := none, resolutionCheckInterval := none }

/-- ConfigManager.get_user_setting for restart_on_resolution_change with
default_value False (lines 62-69): the user's own entry when present,
else the default section's entry, else False. -/
def getUserRestart (cfg : UserConfig) (user : String) : Bool :=
  match (lookupEntity cfg.users user).restartOnResolutionChange with
  | some v => v
  | none => cfg.defaultSettings.restartOnResolutionChange.getD false

/-- ConfigManager.get_room_setting for restart_on_resolution_change with
default_value False (lines 71-78). -/
def getRoomRestart (cfg : UserConfig) (room : String) : Bool :=
  match (lookupEntity cfg.rooms room).restartOnResolutionChange with
  | some v => v
  | none => cfg.defaultSettings.restartOnResolutionChange.getD false

/-- ConfigManager.get_user_setting for resolution_check_interval with
default_value 5 (lines 111-118 call it so). -/
def getUserInterval (cfg : UserConfig) (user : String) : Nat :=
  match (lookupEntity cfg.users user).resolutionCheckInterval with
  | some v => v
  | none => cfg.defaultSettings.resolutionCheckInterval.getD 5

/-- ConfigManager.get_room_setting for resolution_check_interval with
default_value 5. -/
def getRoomInterval (cfg : UserConfig) (room : String) : Nat :=
  match (lookupEntity cfg.rooms room).resolutionCheckInterval with
  | some v => v
  | none => cfg.defaultSettings.resolutionCheckInterval.getD 5

/-- ConfigManager.should_restart_on_resolution_change (lines 102-109):
the user branch is taken whenever a user is passed; the room branch runs
only when no user is passed. -/
def shouldRestartOnResolutionChange (cfg : UserConfig)
    (user room : Option String) : Bool :=
  match user with
  | some u => getUserRestart cfg u
  | none =>
    match room with
    | some r => getRoomRestart cfg r
    | none => cfg.defaultSettings.restartOnResolutionChange.getD false

/-- ConfigManager.get_resolution_check_interval (lines 111-118), with the
same branch structure. -/
def getResolutionCheckInterval (cfg : UserConfig)
    (user room : Option String) : Nat :=
  match user with
  | some u => getUserInterval cfg u
  | none =>
    match room with
    | some r => getRoomInterval cfg r
    | none => cfg.defaultSettings.resolutionCheckInterval.getD 5

/-- Modelled from the spec: the precedence the claim describes for the
restart flag, namely the per-user override when one exists, otherwise the
per-room override, otherwise the global default; stated only to compare
with the implementation above. -/
def claimedRestartSetting (cfg : UserConfig) (user room : Option String) : Bool :=
  match user.bind (fun u => (lookupEntity cfg.users u).restartOnResolutionChange) with
  | some v => v
  | none =>
    match room.bind (fun r => (lookupEntity cfg.rooms r).restartOnResolutionChange) with
    | some v => v
    | none => cfg.defaultSettings.restartOnResolutionChange.getD false

/-- Configuration exhibiting the precedence divergence: no user override
exists for alice, while room1 carries an override. -/
def c9cfg : UserConfig :=
  { defaultSettings :=
      { restartOnResolutionChange := some false, resolutionCheckInterval := some 5 }
    users := []
    rooms :=
      [("room1",
        { restartOnResolutionChange := some true, resolutionCheckInterval := none })] }

/-- The restart flag and check interval a session actually consults. -/
structure SessionResolutionSettings where
  restart : Bool
  checkInterval : Nat
deriving Repr, DecidableEq

/-- The multi recorder constructs a fresh ConfigManager inside
_start_recording_with_stop_event (line 262), so each session resolves its
settings from the configuration on disk at that session's start. -/
def multiSessionSettings (cfgAtSessionStart : UserConfig)
    (user room : Option String) : SessionResolutionSettings :=
  { restart := shouldRestartOnResolutionChange cfgAtSessionStart user room
    checkInterval := getResolutionCheckInterval cfgAtSessionStart user room }

/-- The single recorder constructs its ConfigManager once in its
initializer (tiktok_recorder.py line 74) and _load_config reads the file
only there, so every later session, restarts included, resolves settings
from the snapshot taken at construction, ignoring the file contents at
session start. -/
def singleSessionSettings (cfgAtInit cfgAtSessionStart : UserConfig)
    (user room : Option String) : SessionResolutionSettings :=
  { restart := shouldRestartOnResolutionChange cfgAtInit user room
    checkInterval := getResolutionCheckInterval cfgAtInit user room }

/-- C9 counterexample: with both a user and a room passed (as every
caller does), a room override with no matching user override is ignored
in favor of the global default, diverging from the claimed
user-then-room-then-default precedence. -/
theorem c9_precedence_counterexample :
    shouldRestartOnResolutionChange c9cfg (some "alice") (some "room1") = false ∧
    claimedRestartSetting c9cfg (some "alice") (some "room1") = true := by
  constructor <;> rfl

/-- C9 amended: when a user is passed the settings resolve as the
per-user override else the global default, the room override never being
consulted; only when no user is passed does the per-room override (else
the global default) apply.  The multi recorder re-reads the configuration
at each session start, while the single recorder resolves every session,
restarts included, from the snapshot loaded at construction, so an
external configuration change takes effect on the next restart only in
the multi recorder. -/
theorem c9_config_resolution_amended :
    (∀ cfg u room v,
      (lookupEntity cfg.users u).restartOnResolutionChange = some v →
      shouldRestartOnResolutionChange cfg (some u) room = v) ∧
    (∀ cfg u room,
      (lookupEntity cfg.users u).restartOnResolutionChange = none →
      shouldRestartOnResolutionChange cfg (some u) room
        = cfg.defaultSettings.restartOnResolutionChange.getD false) ∧
    (∀ cfg r v,
      (lookupEntity cfg.rooms r).restartOnResolutionChange = some v →
      shouldRestartOnResolutionChange cfg none (some r) = v) ∧
    (∀ cfg u room, getResolutionCheckInterval cfg (some u) room = getUserInterval cfg u) ∧
    (∀ cfgInit cfgNow cfgLater u room,
      singleSessionSettings cfgInit cfgNow u room
        = singleSessionSettings cfgInit cfgLater u room) ∧
    (∃ cfgInit cfgNow u room,
      singleSessionSettings cfgInit cfgNow u room ≠ multiSessionSettings cfgNow u room) := by
  refine ⟨?_, ?_, ?_, ?_, ?_, ?_⟩
  · intro cfg u room v h
    simp [shouldRestartOnResolutionChange, getUserRestart, h]
  · intro cfg u room h
    simp [shouldRestartOnResolutionChange, getUserRestart, h]
  · intro cfg r v h
    simp [shouldRestartOnResolutionChange, getRoomRestart, h]
  · intro cfg u room
    rfl
  · intro cfgInit cfgNow cfgLater u room
    rfl
  · refine ⟨c9cfg,
      { defaultSettings :=
          { restartOnResolutionChange := some true, resolutionCheckInterval := some 5 }
        users := []
        rooms := [] },
      some "alice", none, ?_⟩
    decide

/-- Closed instance of c9_config_resolution_amended: a present user
override wins, and an absent one falls back to the default even with a
room override present. -/
theorem c9_config_resolution_amended_witness :
    shouldRestartOnResolutionChange
      { defaultSettings :=
          { restartOnResolutionChange := some false, resolutionCheckInterval := none }
        users :=
          [("bob",
            { restartOnResolutionChange := some true, resolutionCheckInterval := none })]
        rooms := [] } (some "bob") none = true ∧
    shouldRestartOnResolutionChange c9cfg (some "alice") (some "room1") = false :=
  ⟨c9_config_resolution_amended.1
      { defaultSettings :=
          { restartOnResolutionChange := some false, resolutionCheckInterval := none }
        users :=
          [("bob",
            { restartOnResolutionChange := some true, resolutionCheckInterval := none })]
        rooms := [] } "bob" none true rfl,
   c9_config_resolution_amended.2.1 c9cfg "alice" (some "room1") rfl⟩

/-! ## Single-probe totality (C10)

ResolutionDetector.get_current_resolution (lines 23-68) wraps the whole
ffprobe invocation in try-except arms that all return None, and reaches a
pair only through the truthiness test on width and height. -/

/-- One stream entry parsed from the probe's JSON output: the width and
height fields may be absent; present values are JSON integers. -/
structure ProbeStreamEntry where
  width : Option Int
  height : Option Int
deriving Repr, DecidableEq

/-- Outcome of the ffprobe subprocess invocation: the 10-second timeout,
any other exception during the call, or completion with a return code and
the result of parsing stdout (none when json.loads raises). -/
inductive ProbeOutcome where
  | timeout
  | subprocessError
  | completed (returncode : Int) (parsed : Option (List ProbeStreamEntry))
deriving Repr, DecidableEq

/-- ResolutionDetector.get_current_resolution: every failure path returns
None (timeout, exception, nonzero return code, unparsable output, empty
stream list, missing or falsy width or height); a parse with truthy width
and height returns the pair (int(width), int(height)). -/
def getCurrentResolution : ProbeOutcome → Option (Int × Int)
  | ProbeOutcome.timeout => none
  | ProbeOutcome.subprocessError => none
  | ProbeOutcome.completed rc parsed =>
    if rc = 0 then
      match parsed with
      | none => none
      | some [] => none
      | some (s :: _) =>
        match s.width, s.height with
        | some w, some h => if w ≠ 0 ∧ h ≠ 0 then some (w, h) else none
        | some _, none => none
        | none, _ => none
    else none

/-- C10 counterexample: a parsed stream whose width field is the JSON
integer -1 passes the truthiness test, so the probe returns (-1, 720),
which is not a pair of positive integers. -/
theorem c10_positive_pair_counterexample :
    getCurrentResolution (ProbeOutcome.completed 0
        (some [{ width := some (-1), height := some 720 }]))
      = some (-1, 720) ∧
    ¬ (0 : Int) < -1 := by
  constructor
  · rfl
  · decide

/-- C10 amended: get_current_resolution is total over probe outcomes and
returns either a pair of nonzero integers or None; it returns None
whenever the subprocess times out or raises, the return code is nonzero,
the output cannot be parsed, the stream list is empty, or width or height
is missing or falsy.  Positivity beyond nonzero is not checked. -/
theorem c10_probe_total_amended :
    (∀ o, getCurrentResolution o = none ∨
      ∃ w h, getCurrentResolution o = some (w, h) ∧ w ≠ 0 ∧ h ≠ 0) ∧
    getCurrentResolution ProbeOutcome.timeout = none ∧
    getCurrentResolution ProbeOutcome.subprocessError = none ∧
    (∀ rc parsed, rc ≠ 0 →
      getCurrentResolution (ProbeOutcome.completed rc parsed) = none) ∧
    (∀ rc, getCurrentResolution (ProbeOutcome.completed rc none) = none) ∧
    (∀ rc, getCurrentResolution (ProbeOutcome.completed rc (some [])) = none) ∧
    (∀ rc rest hgt, getCurrentResolution (ProbeOutcome.completed rc
        (some ({ width := none, height := hgt } :: rest))) = none) ∧
    (∀ rc rest w, getCurrentResolution (ProbeOutcome.completed rc
        (some ({ width := some w, height := none } :: rest))) = none) ∧
    (∀ rc rest hgt, getCurrentResolution (ProbeOutcome.completed rc
        (some ({ width := some 0, height := hgt } :: rest))) = none) ∧
    (∀ rc rest w, getCurrentResolution (ProbeOutcome.completed rc
        (some ({ width := some w, height := some 0 } :: rest))) = none) := by
  refine ⟨?_, rfl, rfl, ?_, ?_, ?_, ?_, ?_, ?_, ?_⟩
  · intro o
    match o with
    | ProbeOutcome.timeout => exact Or.inl rfl
    | ProbeOutcome.subprocessError => exact Or.inl rfl
    | ProbeOutcome.completed rc parsed =>
      by_cases hrc : rc = 0
      · subst hrc
        match parsed with
        | none => exact Or.inl rfl
        | some [] => exact Or.inl rfl
        | some (s :: rest) =>
          match hw : s.width, hh : s.height with
          | some w, some h =>
            by_cases hz : w ≠ 0 ∧ h ≠ 0
            · refine Or.inr ⟨w, h, ?_, hz.1, hz.2⟩
              simp [getCurrentResolution, hw, hh, hz]
            · refine Or.inl ?_
              simp only [getCurrentResolution, hw, hh]
              simp [hz]
          | some w, none => exact Or.inl (by simp [getCurrentResolution, hw, hh])
          | none, some h => exact Or.inl (by simp [getCurrentResolution, hw])
          | none, none => exact Or.inl (by simp [getCurrentResolution, hw])
      · exact Or.inl (by simp [getCurrentResolution, hrc])
  · intro rc parsed h
    simp [getCurrentResolution, h]
  · intro rc
    by_cases h : rc = 0 <;> simp [getCurrentResolution, h]
  · intro rc
    by_cases h : rc = 0 <;> simp [getCurrentResolution, h]
  · intro rc rest hgt
    by_cases h : rc = 0 <;> simp [getCurrentResolution, h]
  · intro rc rest w
    by_cases h : rc = 0 <;> simp [getCurrentResolution, h]
  · intro rc rest hgt
    by_cases h : rc = 0 <;> cases hgt <;> simp [getCurrentResolution, h]
  · intro rc rest w
    by_cases h : rc = 0 <;> simp [getCurrentResolution, h]

/-- Closed instance of c10_probe_total_amended at a nonzero return
code. -/
theorem c10_probe_total_amended_witness :
    getCurrentResolution (ProbeOutcome.completed 1 none) = none :=
  c10_probe_total_amended.2.2.2.1 1 none (by decide)

/-! ## Output naming and collision freedom (C6)

Both recorders name the session artifact
user_folder + "TK_" + user + "_" + date(+ suffix) + "_flv.mp4"
(tiktok_recorder.py lines 140-156, multi_stream_recorder.py lines
234-252), where the multi recorder appends "_" + thread_name and
thread_name is the stream key "Stream-" + (index + 1) passed to
_record_stream (line 122).  The development below first characterizes the
decimal rendering Nat.repr used for the stream index, then proves the
collision-freedom facts about the path builder. -/

/-- Decimal digit list of n, most significant digit first, in directly
structural form; shown below to agree with the rendering used by
Nat.repr. -/
def decDigits (n : Nat) : List Char :=
  if n < 10 then [Nat.digitChar n]
  else decDigits (n / 10) ++ [Nat.digitChar (n % 10)]
termination_by n
decreasing_by
  exact Nat.div_lt_self (by omega) (by omega)

theorem toDigitsCore_eq_decDigits (fuel : Nat) :
    ∀ (n : Nat) (ds : List Char), n < fuel →
      Nat.toDigitsCore 10 fuel n ds = decDigits n ++ ds := by
  induction fuel with
  | zero => intro n ds h; omega
  | succ f ih =>
    intro n ds h
    rw [Nat.toDigitsCore]
    by_cases h10 : n / 10 = 0
    · have hn : n < 10 := by omega
      rw [if_pos h10, decDigits, if_pos hn, Nat.mod_eq_of_lt hn]
      rfl
    · have hn : ¬ n < 10 := by
        intro hc
        exact h10 (Nat.div_eq_of_lt hc)
      have hdiv : n / 10 < n := Nat.div_lt_self (by omega) (by omega)
      rw [if_neg h10, decDigits, if_neg hn, ih (n / 10) _ (by omega)]
      simp

theorem toDigits_eq_decDigits (n : Nat) : Nat.toDigits 10 n = decDigits n := by
  have := toDigitsCore_eq_decDigits (n + 1) n [] (Nat.lt_succ_self n)
  simpa [Nat.toDigits] using this

theorem repr_data (n : Nat) : (Nat.repr n).data = decDigits n := by
  simp [Nat.repr, List.asString, toDigits_eq_decDigits]

/-- Value of a digit list read back as a decimal number. -/
def digitsVal (cs : List Char) : Nat :=
  cs.foldl (fun a c => a * 10 + (c.toNat - 48)) 0

theorem digitChar_toNat_sub (d : Nat) (h : d < 10) :
    (Nat.digitChar d).toNat - 48 = d := by
  interval_cases d <;> decide

theorem digitsVal_decDigits (n : Nat) : digitsVal (decDigits n) = n := by
  induction n using Nat.strong_induction_on with
  | _ n ih =>
    rw [decDigits]
    split
    · rename_i h
      simp [digitsVal, digitChar_toNat_sub n h]
    · rename_i h
      have h1 : n / 10 < n := Nat.div_lt_self (by omega) (by omega)
      have h2 := ih (n / 10) h1
      rw [digitsVal, List.foldl_append]
      rw [digitsVal] at h2
      rw [h2]
      simp [digitChar_toNat_sub (n % 10) (Nat.mod_lt _ (by omega))]
      omega

theorem decDigits_injective {m n : Nat} (h : decDigits m = decDigits n) : m = n := by
  have hm := digitsVal_decDigits m
  rw [h, digitsVal_decDigits] at hm
  omega

/-- Whether a character is a decimal digit. -/
def isDecDigit (c : Char) : Bool := 48 ≤ c.toNat && c.toNat ≤ 57

theorem digitChar_isDecDigit (d : Nat) (h : d < 10) :
    isDecDigit (Nat.digitChar d) = true := by
  interval_cases d <;> decide

theorem decDigits_all_digits (n : Nat) :
    ∀ c ∈ decDigits n, isDecDigit c = true := by
  induction n using Nat.strong_induction_on with
  | _ n ih =>
    rw [decDigits]
    split
    · rename_i h
      intro c hc
      simp only [List.mem_singleton] at hc
      subst hc
      exact digitChar_isDecDigit n h
    · rename_i h
      intro c hc
      rw [List.mem_append] at hc
      cases hc with
      | inl hc => exact ih (n / 10) (Nat.div_lt_self (by omega) (by omega)) c hc
      | inr hc =>
        simp only [List.mem_singleton] at hc
        subst hc
        exact digitChar_isDecDigit (n % 10) (Nat.mod_lt _ (by omega))

/-- Two all-digit runs followed by the same non-digit separator inside
equal lists are equal. -/
theorem digit_seg_cancel (sep : Char) (hsep : isDecDigit sep = false) :
    ∀ (xs ys as bs : List Char),
      (∀ c ∈ xs, isDecDigit c = true) → (∀ c ∈ ys, isDecDigit c = true) →
      xs ++ sep :: as = ys ++ sep :: bs → xs = ys := by
  intro xs
  induction xs with
  | nil =>
    intro ys as bs _ hy h
    cases ys with
    | nil => rfl
    | cons y ys2 =>
      simp only [List.nil_append, List.cons_append, List.cons.injEq] at h
      have hyd := hy y (by simp)
      rw [← h.1] at hyd
      rw [hsep] at hyd
      cases hyd
  | cons x xs2 ih =>
    intro ys as bs hx hy h
    cases ys with
    | nil =>
      simp only [List.nil_append, List.cons_append, List.cons.injEq] at h
      have hxd := hx x (by simp)
      rw [h.1] at hxd
      rw [hsep] at hxd
      cases hxd
    | cons y ys2 =>
      simp only [List.cons_append, List.cons.injEq] at h
      obtain ⟨hxy, hrest⟩ := h
      have := ih ys2 as bs (fun c hc => hx c (by simp [hc]))
        (fun c hc => hy c (by simp [hc])) hrest
      rw [hxy, this]

/-- Normalization of the output root performed before building the
user folder: a nonempty root with no trailing separator gains one (posix
branch of the os.name check). -/
def normalizeBaseOutput (base : String) : String :=
  if base = "" then base
  else if base.endsWith "/" || base.endsWith "\\" then base
  else base ++ "/"

/-- user_folder = base_output + user + "/". -/
def userFolder (base user : String) : String :=
  normalizeBaseOutput base ++ user ++ "/"

/-- Stream key "Stream-" + (index + 1) built in MultiStreamRecorder.run
(line 111) and passed to _record_stream as the thread name. -/
def streamKey (i : Nat) : String :=
  "Stream-" ++ Nat.repr (i + 1)

/-- output_suffix = "_" + thread_name when more than one target is
requested, empty otherwise (line 251). -/
def outputSuffix (numTargets i : Nat) : String :=
  if 1 < numTargets then "_" ++ streamKey i else ""

/-- output = user_folder + "TK_" + user + "_" + date + suffix +
"_flv.mp4" (line 252; the single recorder's line 156 is the empty-suffix
instance of the same shape). -/
def sessionOutputPath (base user date : String) (numTargets i : Nat) : String :=
  userFolder base user ++ "TK_" ++ user ++ "_" ++ date
    ++ outputSuffix numTargets i ++ "_flv.mp4"

/-- os.makedirs(user_folder, exist_ok=True) over an abstract directory
set: afterwards the target-scoped directory exists, whether or not it
already did. -/
def makedirs (dirs : List String) (d : String) : List String :=
  if d ∈ dirs then dirs else d :: dirs

/-- Output paths of the initial session and its restarts for one target:
one path per session-start timestamp. -/
def restartSessionPaths (base user : String) (numTargets i : Nat)
    (dates : List String) : List String :=
  dates.map (fun d => sessionOutputPath base user d numTargets i)

theorem sessionOutputPath_date_inj (base user d1 d2 : String) (n i : Nat)
    (h : sessionOutputPath base user d1 n i = sessionOutputPath base user d2 n i) :
    d1 = d2 := by
  have hd := congrArg String.data h
  simp only [sessionOutputPath, String.data_append] at hd
  have h1 := List.append_cancel_right hd
  have h2 := List.append_cancel_right h1
  have h3 := List.append_cancel_left h2
  exact String.ext h3

theorem sessionOutputPath_stream_inj (base u1 u2 d1 d2 : String) (n i j : Nat)
    (hn : 1 < n) (hij : i ≠ j) :
    sessionOutputPath base u1 d1 n i ≠ sessionOutputPath base u2 d2 n j := by
  intro h
  apply hij
  have hd := congrArg String.data h
  simp only [sessionOutputPath, outputSuffix, if_pos hn, streamKey,
    String.data_append] at hd
  have hr := congrArg List.reverse hd
  simp only [List.reverse_append, List.append_assoc] at hr
  have hst : ("Stream-".data).reverse = ['-', 'm', 'a', 'e', 'r', 't', 'S'] := by
    decide
  rw [hst] at hr
  simp only [List.cons_append] at hr
  have h1 := List.append_cancel_left hr
  have hxd : ∀ c ∈ ((Nat.repr (i + 1)).data).reverse, isDecDigit c = true := by
    intro c hc
    rw [List.mem_reverse] at hc
    rw [repr_data] at hc
    exact decDigits_all_digits (i + 1) c hc
  have hyd : ∀ c ∈ ((Nat.repr (j + 1)).data).reverse, isDecDigit c = true := by
    intro c hc
    rw [List.mem_reverse] at hc
    rw [repr_data] at hc
    exact decDigits_all_digits (j + 1) c hc
  have h2 := digit_seg_cancel '-' (by decide) _ _ _ _ hxd hyd h1
  rw [List.reverse_inj] at h2
  rw [repr_data, repr_data] at h2
  have h3 := decDigits_injective h2
  omega

/-- C6: each session's artifact path is built from the target identity
and the session-start timestamp inside the target-scoped folder, which
makedirs guarantees to exist afterwards; the per-stream suffix is
nonempty exactly when more than one target is requested; for one target,
sessions with pairwise distinct timestamps (the restart path sleeps two
seconds between sessions and the timestamp has one-second resolution)
produce pairwise distinct paths, so N restarts yield exactly N + 1
distinct artifacts; and two concurrent sessions for different targets
(distinct stream indices in a run with more than one target) can never
produce the same path, whatever their users and timestamps are. -/
theorem c6_output_naming_collision_free :
    (∀ dirs base user, userFolder base user ∈ makedirs dirs (userFolder base user)) ∧
    (∀ n i, outputSuffix n i ≠ "" ↔ 1 < n) ∧
    (∀ base user d1 d2 n i,
      sessionOutputPath base user d1 n i = sessionOutputPath base user d2 n i →
        d1 = d2) ∧
    (∀ base user n i dates, dates.Nodup →
      (restartSessionPaths base user n i dates).length = dates.length ∧
      (restartSessionPaths base user n i dates).Nodup) ∧
    (∀ base u1 u2 d1 d2 n i j, 1 < n → i ≠ j →
      sessionOutputPath base u1 d1 n i ≠ sessionOutputPath base u2 d2 n j) := by
  refine ⟨?_, ?_, ?_, ?_, ?_⟩
  · intro dirs base user
    by_cases h : userFolder base user ∈ dirs <;> simp [makedirs, h]
  · intro n i
    constructor
    · intro h
      by_contra hn
      exact h (by simp [outputSuffix, hn])
    · intro hn he
      have hd := congrArg String.data he
      simp [outputSuffix, if_pos hn, streamKey, String.data_append] at hd
  · intro base user d1 d2 n i h
    exact sessionOutputPath_date_inj base user d1 d2 n i h
  · intro base user n i dates hnd
    constructor
    · simp [restartSessionPaths]
    · exact List.Nodup.map
        (fun d1 d2 hdd => sessionOutputPath_date_inj base user d1 d2 n i hdd) hnd
  · intro base u1 u2 d1 d2 n i j hn hij
    exact sessionOutputPath_stream_inj base u1 u2 d1 d2 n i j hn hij

/-- Closed instance of c6_output_naming_collision_free: two restarts of
one target with distinct timestamps give three distinct artifacts, and
two concurrent targets in a two-target run never share a path even with
equal timestamps. -/
theorem c6_output_naming_collision_free_witness :
    (restartSessionPaths "" "alice" 1 0
        ["2025.01.01_10-00-00", "2025.01.01_10-05-02", "2025.01.01_10-09-04"]).length
      = 3 ∧
    (restartSessionPaths "" "alice" 1 0
        ["2025.01.01_10-00-00", "2025.01.01_10-05-02", "2025.01.01_10-09-04"]).Nodup ∧
    sessionOutputPath "" "alice" "2025.01.01_10-00-00" 2 0
      ≠ sessionOutputPath "" "bob" "2025.01.01_10-00-00" 2 1 :=
  ⟨(c6_output_naming_collision_free.2.2.2.1 "" "alice" 1 0
      ["2025.01.01_10-00-00", "2025.01.01_10-05-02", "2025.01.01_10-09-04"]
      (by decide)).1,
   (c6_output_naming_collision_free.2.2.2.1 "" "alice" 1 0
      ["2025.01.01_10-00-00", "2025.01.01_10-05-02", "2025.01.01_10-09-04"]
      (by decide)).2,
   c6_output_naming_collision_free.2.2.2.2 "" "alice" "bob"
      "2025.01.01_10-00-00" "2025.01.01_10-00-00" 2 0 1 (by decide) (by decide)⟩

end TLRec
